import Mathlib

/-!
Shallow embedding of the Rust repository `rust_book_chapter_19`.

The repository holds two near-duplicate binaries, `src/src/main.rs`
(embedded below in namespace `SrcMain`) and `src/main_stuff/src/main.rs`
(namespace `MainStuff`), plus the `procedural_trait` crate declaring the
`HelloMacro` trait.  Every demonstration function is embedded as a value
of type `List Ev`: the ordered trace of events (nested demonstration
function calls, `println!` outputs, and `panic!`s) the Rust function
produces.  The mutable static `COUNTER` of `unsafe_rust` is threaded as
explicit state.  Rust `u32` values are modelled as `Nat`, `i32`/`isize`
values as `Int` (no value in the program approaches an overflow bound).
-/

/-- An observable event of a run: a call of a demonstration function
defined in this repository, a line printed to standard output, or a
`panic!` with its message. -/
inductive Ev
  | call : String → Ev
  | print : String → Ev
  | panic : String → Ev
deriving DecidableEq

/-- Is the event a `panic!`? -/
def Ev.isPanic : Ev → Bool
  | Ev.panic _ => true
  | _ => false

/-- The lines a trace prints to standard output, in order. -/
def prints (t : List Ev) : List String :=
  t.filterMap fun e =>
    match e with
    | Ev.print s => some s
    | _ => none

/-- Rust's `[String]::join(sep)`: the elements concatenated with the
separator between consecutive elements. -/
def joinRust (sep : String) : List String → String
  | [] => ""
  | [x] => x
  | x :: y :: xs => x ++ sep ++ joinRust sep (y :: xs)

/-- `Debug` formatting of a `Vec<i32>` / `&mut [i32]`: `[1, 2, 3]`. -/
def fmtListInt (xs : List Int) : String :=
  "[" ++ joinRust (", ") (xs.map toString) ++ "]"

/-- `Debug` formatting of a pair of `i32` slices: `([1, 2, 3], [4, 5])`. -/
def fmtSlicePair (p : List Int × List Int) : String :=
  "(" ++ fmtListInt p.1 ++ ", " ++ fmtListInt p.2 ++ ")"

/-- `Debug` formatting of an `Option`, given a formatter for the payload:
`None` or `Some(x)`. -/
def fmtOption (fmtA : α → String) : Option α → String
  | none => "None"
  | some a => "Some(" ++ fmtA a ++ ")"

/-- `Debug` formatting of a Rust `String`: quoted. -/
def fmtStringDebug (s : String) : String :=
  "\"" ++ s ++ "\""

/-- `Debug` formatting of a `HashMap` modelled as an association list:
`{}` when empty, `{k1: v1, k2: v2}` otherwise. -/
def fmtMap (fmtK : κ → String) (fmtV : ν → String) (m : List (κ × ν)) : String :=
  "\x7b" ++ joinRust (", ") (m.map fun kv => fmtK kv.1 ++ ": " ++ fmtV kv.2) ++ "\x7d"

/-- `Debug` formatting of a `Vec<String>`: `["a", "b"]`. -/
def fmtListStringDebug (xs : List String) : String :=
  "[" ++ joinRust (", ") (xs.map fmtStringDebug) ++ "]"

/-- `Debug` formatting of a `HashSet<u32>` modelled as a list of
elements: `{}` when empty, `{1, 2}` otherwise. -/
def fmtSetNat (xs : List Nat) : String :=
  "\x7b" ++ joinRust (", ") (xs.map toString) ++ "\x7d"

/-- The C standard library `abs` on `i32`, called through `extern "C"`. -/
def c_abs (input : Int) : Int :=
  if input < 0 then -input else input

namespace SrcMain

/-! Embedding of `src/src/main.rs`. -/

/-- `danger` (line 47): an unsafe fn that prints a fixed line. -/
def danger : List Ev :=
  [Ev.print ("Dangerous function called!")]

/-- `danger_two` (line 56): safe wrapper printing the value `1` read back
through a raw pointer to a local initialised to `1`. -/
def danger_two : List Ev :=
  let x : Int := 1
  [Ev.print ("Another dangerous function " ++ toString x)]

/-- `hello` (line 70): from the data pointer of a vector of `i32`, builds
the slice of its first 3 elements and the slice of the 2 elements starting
at index 3, and returns the pair. -/
def hello (x : List Int) : List Int × List Int :=
  let first := x.take 3
  let second := (x.drop 3).take 2
  (first, second)

/-- `unsafe_rust` (line 11): the unsafe-Rust demonstration.  Takes the
value of the mutable static `COUNTER` on entry and returns its value on
exit together with the event trace. -/
def unsafe_rust (COUNTER : Int) : Int × List Ev :=
  let x : Int := 5
  let raw_ptr_events :=
    [Ev.print ("mut_ptr: " ++ toString x), Ev.print ("ptr: " ++ toString x)]
  let danger_events := Ev.call ("danger") :: danger
  let danger_two_events := Ev.call ("danger_two") :: danger_two
  let v : List Int := [1, 2, 3, 4, 5]
  let hello_events :=
    [Ev.call ("hello"), Ev.print ("Unsafe stuff: " ++ fmtSlicePair (hello v))]
  let abs_events :=
    [Ev.print ("Absolute value of -3 according to C: " ++ toString (c_abs (-3)))]
  let counter' := COUNTER + 1
  let counter_events := [Ev.print ("COUNTER: " ++ toString counter')]
  (counter', raw_ptr_events ++ danger_events ++ danger_two_events
    ++ hello_events ++ abs_events ++ counter_events)

/-! `advanced_traits` (line 115) and the items declared in its body. -/

/-- `trait FooAssociated` (line 120): associated type `Item`, method
`foo_associated(&mut self) -> Option<Self::Item>` (no mutation occurs). -/
class FooAssociated (α : Type) where
  Item : Type
  foo_associated : α → Option Item

/-- `trait FooGeneric<T>` (line 126). -/
class FooGeneric (T : Type) (α : Type) where
  foo_generic : α → Option T

/-- `struct BarStruct` (line 130): a unit struct. -/
structure BarStruct where

/-- `impl FooAssociated for BarStruct` (line 132): `Item = u32`,
`foo_associated` returns `Some(3)`. -/
instance instFooAssociatedBarStruct : FooAssociated BarStruct where
  Item := Nat
  foo_associated _ := some 3

/-- `impl FooGeneric<u32> for BarStruct` (line 150): returns `Some(5)`. -/
instance instFooGenericU32BarStruct : FooGeneric Nat BarStruct where
  foo_generic _ := some 5

/-- `impl FooGeneric<String> for BarStruct` (line 156): returns
`Some(String::from("generic"))`. -/
instance instFooGenericStringBarStruct : FooGeneric String BarStruct where
  foo_generic _ := some ("generic")

/-- `trait Winner<T=u32>` (line 177): default type parameter `u32`. -/
class Winner (α : Type) (T : Type := Nat) where
  Output : Type
  win : α → T → T

/-- `struct Check` (line 183). -/
structure Check where

/-- `impl Winner for Check` (line 187): uses the default type parameter,
`win` returns its argument. -/
instance instWinnerCheck : Winner Check where
  Output := Unit
  win _ num := num

/-- `trait Arm` (line 201) with a default `pain` implementation. -/
class Arm (α : Type) where
  pain : α → String := fun _ => "My arm feels good"

/-- `trait Leg` (line 207) with a default `pain` implementation. -/
class Leg (α : Type) where
  pain : α → String := fun _ => "My leg is a little sore"

/-- `struct Human` (line 213). -/
structure Human where

/-- `impl Arm for Human {}` (line 215): inherits the trait default. -/
instance instArmHuman : Arm Human := {}

/-- `impl Leg for Human {}` (line 217): inherits the trait default. -/
instance instLegHuman : Leg Human := {}

/-- The inherent `impl Human` (line 219): `pain` prints feeling good
overall.  Dot notation `human.pain` resolves here, as Rust method
resolution prefers the inherent impl. -/
def Human.pain (_ : Human) : String :=
  "Overall I feel good"

/-- `trait ShowStuff: Display` (line 239): supertrait `Display`, default
`show_stuff` formats `self` via its `Display` implementation. -/
class Display (α : Type) where
  fmt : α → String

/-- Default body of `ShowStuff::show_stuff` (line 240). -/
class ShowStuff (α : Type) [Display α] where
  show_stuff : α → String := fun a => "running show_stuff() " ++ Display.fmt a

/-- `struct Box{len: i32}` (line 245); named `BoxS` in the embedding to
avoid shadowing issues, the source name being `Box`. -/
structure BoxS where
  len : Int

/-- `impl Display for Box` (line 248): formats the `len` field. -/
instance instDisplayBoxS : Display BoxS where
  fmt b := toString b.len

/-- `impl ShowStuff for Box {}` (line 254): inherits the default. -/
instance instShowStuffBoxS : ShowStuff BoxS := {}

/-- `struct Wrapper(Vec<String>)` (line 268): the newtype around
`Vec<String>`. -/
structure Wrapper where
  val : List String

/-- `impl Display for Wrapper` (line 270):
`write!(f, "[{}]", self.0.join(", "))`. -/
instance instDisplayWrapper : Display Wrapper where
  fmt w := "[" ++ joinRust (", ") w.val ++ "]"

/-- `advanced_traits` (line 115): the advanced-traits demonstration. -/
def advanced_traits : List Ev :=
  let bar := BarStruct.mk
  let l1 := Ev.print ("associated "
    ++ fmtOption toString (show Option Nat from FooAssociated.foo_associated bar)
    ++ " generic::u32 "
    ++ fmtOption toString (@FooGeneric.foo_generic Nat BarStruct _ bar)
    ++ " generic::String "
    ++ fmtOption fmtStringDebug (@FooGeneric.foo_generic String BarStruct _ bar))
  let check := Check.mk
  let l2 := Ev.print ("win " ++ toString (Winner.win check 4))
  let human := Human.mk
  let pain_lines :=
    [Ev.print (human.pain), Ev.print (Arm.pain human), Ev.print (Leg.pain human),
      Ev.print (@Leg.pain Human _ human)]
  let my_box := BoxS.mk 12
  let l3 := Ev.print (ShowStuff.show_stuff my_box)
  let w := Wrapper.mk [("hello"), ("world")]
  let l4 := Ev.print ("w = " ++ Display.fmt w)
  l1 :: l2 :: pain_lines ++ [l3, l4]

/-! `advanced_types` (line 281) and the items declared in its body. -/

/-- The type alias `Hi` (line 287):
`HashMap<Vec<i32>, HashMap<Vec<String>, HashSet<u32>>>`, each map or set
modelled as a list of entries. -/
def Hi : Type :=
  List (List Int × List (List String × List Nat))

/-- `fn foo() -> !` (line 299): the never-type demonstration; its body
unconditionally panics with message `never type`. -/
def advanced_types.foo : List Ev :=
  [Ev.panic ("never type")]

/-- `advanced_types` (line 281): the advanced-types demonstration.  The
empty `Hi` map is printed; `foo` is called only under `if false`;
`_generic` and `_generic_unsized` are defined but never called. -/
def advanced_types : List Ev :=
  let hello : Hi := []
  let l1 := Ev.print ("hello: "
    ++ fmtMap fmtListInt (fmtMap fmtListStringDebug fmtSetNat) hello)
  let foo_events := if false then Ev.call ("advanced_types::foo") :: advanced_types.foo else []
  l1 :: foo_events

/-- `main` (line 5) of `src/src/main.rs`: calls `unsafe_rust`,
`advanced_traits`, `advanced_types` in that order, with the static
`COUNTER` initialised to `0` at process start. -/
def main : List Ev :=
  let u := unsafe_rust 0
  (Ev.call ("unsafe_rust") :: u.2)
    ++ (Ev.call ("advanced_traits") :: advanced_traits)
    ++ (Ev.call ("advanced_types") :: advanced_types)

/-- A run of the process: the binary never reads standard input (and has
no other input source), so the trace is independent of the stdin
contents passed here. -/
def run (_stdin : List String) : List Ev :=
  main

end SrcMain

/-- Modelled from the spec: the `procedural_macros` crate (the companion
procedural-macro crate implementing `#[derive(HelloMacro)]`) is not under
`src/`; only the `procedural_trait` crate declaring
`fn hello_macro();` is.  Per the spec it is "a textbook example of
`#[derive(...)]` macro mechanics": the derived `hello_macro` for
`TheNamedStruct` prints one fixed greeting line naming the type.  Its
exact text is modelled as this constant. -/
def hello_macro_output : String :=
  "Hello, Macro! My name is TheNamedStruct!"

namespace MainStuff

/-! Embedding of `src/main_stuff/src/main.rs`.  Its `unsafe_rust`,
`advanced_traits` and `advanced_types` bodies are textually identical to
those of `src/src/main.rs` (up to whitespace); they are embedded again
here against that file's line numbers. -/

/-- `danger` (line 49): an unsafe fn that prints a fixed line. -/
def danger : List Ev :=
  [Ev.print ("Dangerous function called!")]

/-- `danger_two` (line 58): safe wrapper printing the value `1` read back
through a raw pointer to a local initialised to `1`. -/
def danger_two : List Ev :=
  let x : Int := 1
  [Ev.print ("Another dangerous function " ++ toString x)]

/-- `hello` (line 72): from the data pointer of a vector of `i32`, builds
the slice of its first 3 elements and the slice of the 2 elements starting
at index 3, and returns the pair. -/
def hello (x : List Int) : List Int × List Int :=
  let first := x.take 3
  let second := (x.drop 3).take 2
  (first, second)

/-- `unsafe_rust` (line 13): the unsafe-Rust demonstration.  Takes the
value of the mutable static `COUNTER` on entry and returns its value on
exit together with the event trace. -/
def unsafe_rust (COUNTER : Int) : Int × List Ev :=
  let x : Int := 5
  let raw_ptr_events :=
    [Ev.print ("mut_ptr: " ++ toString x), Ev.print ("ptr: " ++ toString x)]
  let danger_events := Ev.call ("danger") :: danger
  let danger_two_events := Ev.call ("danger_two") :: danger_two
  let v : List Int := [1, 2, 3, 4, 5]
  let hello_events :=
    [Ev.call ("hello"), Ev.print ("Unsafe stuff: " ++ fmtSlicePair (hello v))]
  let abs_events :=
    [Ev.print ("Absolute value of -3 according to C: " ++ toString (c_abs (-3)))]
  let counter' := COUNTER + 1
  let counter_events := [Ev.print ("COUNTER: " ++ toString counter')]
  (counter', raw_ptr_events ++ danger_events ++ danger_two_events
    ++ hello_events ++ abs_events ++ counter_events)

/-! `advanced_traits` (line 117) and the items declared in its body. -/

/-- `trait FooAssociated` (line 122). -/
class FooAssociated (α : Type) where
  Item : Type
  foo_associated : α → Option Item

/-- `trait FooGeneric<T>` (line 128). -/
class FooGeneric (T : Type) (α : Type) where
  foo_generic : α → Option T

/-- `struct BarStruct` (line 132): a unit struct. -/
structure BarStruct where

/-- `impl FooAssociated for BarStruct` (line 134): `Item = u32`,
`foo_associated` returns `Some(3)`. -/
instance instFooAssociatedBarStructM : FooAssociated BarStruct where
  Item := Nat
  foo_associated _ := some 3

/-- `impl FooGeneric<u32> for BarStruct` (line 152): returns `Some(5)`. -/
instance instFooGenericU32BarStructM : FooGeneric Nat BarStruct where
  foo_generic _ := some 5

/-- `impl FooGeneric<String> for BarStruct` (line 158): returns
`Some(String::from("generic"))`. -/
instance instFooGenericStringBarStructM : FooGeneric String BarStruct where
  foo_generic _ := some ("generic")

/-- `trait Winner<T = u32>` (line 179): default type parameter `u32`. -/
class Winner (α : Type) (T : Type := Nat) where
  Output : Type
  win : α → T → T

/-- `struct Check` (line 185). -/
structure Check where

/-- `impl Winner for Check` (line 189): uses the default type parameter,
`win` returns its argument. -/
instance instWinnerCheckM : Winner Check where
  Output := Unit
  win _ num := num

/-- `trait Arm` (line 203) with a default `pain` implementation. -/
class Arm (α : Type) where
  pain : α → String := fun _ => "My arm feels good"

/-- `trait Leg` (line 209) with a default `pain` implementation. -/
class Leg (α : Type) where
  pain : α → String := fun _ => "My leg is a little sore"

/-- `struct Human` (line 215). -/
structure Human where

/-- `impl Arm for Human {}` (line 217): inherits the trait default. -/
instance instArmHumanM : Arm Human := {}

/-- `impl Leg for Human {}` (line 219): inherits the trait default. -/
instance instLegHumanM : Leg Human := {}

/-- The inherent `impl Human` (line 221): `pain` prints feeling good
overall; `human.pain` resolves here. -/
def Human.pain (_ : Human) : String :=
  "Overall I feel good"

/-- The supertrait bound `Display` of `ShowStuff` (line 241). -/
class Display (α : Type) where
  fmt : α → String

/-- `trait ShowStuff: Display` (line 241) with its default `show_stuff`. -/
class ShowStuff (α : Type) [Display α] where
  show_stuff : α → String := fun a => "running show_stuff() " ++ Display.fmt a

/-- `struct Box { len: i32 }` (line 247); named `BoxS` in the embedding,
the source name being `Box`. -/
structure BoxS where
  len : Int

/-- `impl Display for Box` (line 252): formats the `len` field. -/
instance instDisplayBoxSM : Display BoxS where
  fmt b := toString b.len

/-- `impl ShowStuff for Box {}` (line 258): inherits the default. -/
instance instShowStuffBoxSM : ShowStuff BoxS := {}

/-- `struct Wrapper(Vec<String>)` (line 272): the newtype around
`Vec<String>`. -/
structure Wrapper where
  val : List String

/-- `impl Display for Wrapper` (line 274):
`write!(f, "[{}]", self.0.join(", "))`. -/
instance instDisplayWrapperM : Display Wrapper where
  fmt w := "[" ++ joinRust (", ") w.val ++ "]"

/-- `advanced_traits` (line 117): the advanced-traits demonstration. -/
def advanced_traits : List Ev :=
  let bar := BarStruct.mk
  let l1 := Ev.print ("associated "
    ++ fmtOption toString (show Option Nat from FooAssociated.foo_associated bar)
    ++ " generic::u32 "
    ++ fmtOption toString (@FooGeneric.foo_generic Nat BarStruct _ bar)
    ++ " generic::String "
    ++ fmtOption fmtStringDebug (@FooGeneric.foo_generic String BarStruct _ bar))
  let check := Check.mk
  let l2 := Ev.print ("win " ++ toString (Winner.win check 4))
  let human := Human.mk
  let pain_lines :=
    [Ev.print (human.pain), Ev.print (Arm.pain human), Ev.print (Leg.pain human),
      Ev.print (@Leg.pain Human _ human)]
  let my_box := BoxS.mk 12
  let l3 := Ev.print (ShowStuff.show_stuff my_box)
  let w := Wrapper.mk [("hello"), ("world")]
  let l4 := Ev.print ("w = " ++ Display.fmt w)
  l1 :: l2 :: pain_lines ++ [l3, l4]

/-! `advanced_types` (line 284) and the items declared in its body. -/

/-- The type alias `Hi` (line 290). -/
def Hi : Type :=
  List (List Int × List (List String × List Nat))

/-- `fn foo() -> !` (line 302): the never-type demonstration; its body
unconditionally panics with message `never type`. -/
def advanced_types.foo : List Ev :=
  [Ev.panic ("never type")]

/-- `advanced_types` (line 284): the advanced-types demonstration.  The
empty `Hi` map is printed; `foo` is called only under `if false`;
`_generic` and `_generic_unsized` are defined but never called. -/
def advanced_types : List Ev :=
  let hello : Hi := []
  let l1 := Ev.print ("hello: "
    ++ fmtMap fmtListInt (fmtMap fmtListStringDebug fmtSetNat) hello)
  let foo_events := if false then Ev.call ("advanced_types::foo") :: advanced_types.foo else []
  l1 :: foo_events

/-! `advanced_functions_and_closures` (line 325) and the items declared
in its body. -/

/-- `closure_add` (line 327): prints the result of applying its `Fn`
argument to `2`. -/
def closure_add (f : Nat → Nat) : List Ev :=
  [Ev.print ("add from closure " ++ toString (f 2))]

/-- `function_ptr_add` (line 334): prints the result of applying its
function-pointer argument to `3`. -/
def function_ptr_add (f : Nat → Nat) : List Ev :=
  [Ev.print ("add from function ptr " ++ toString (f 3))]

/-- `fn foo(i: u32) -> u32` (line 338), local to
`advanced_functions_and_closures`: adds one. -/
def advanced_functions_and_closures.foo (i : Nat) : Nat :=
  i + 1

/-- `returns_closure` (line 359): returns the boxed closure `|x| x + 1`
on `i32`. -/
def returns_closure : Int → Int :=
  fun x => x + 1

/-- `advanced_functions_and_closures` (line 325): the
functions-and-closures demonstration. -/
def advanced_functions_and_closures : List Ev :=
  let capture : Nat := 1
  let close := fun i => i + capture
  let c1 := Ev.call ("closure_add") :: closure_add close
  let c2 := Ev.call ("closure_add") :: closure_add advanced_functions_and_closures.foo
  let c3 := Ev.call ("function_ptr_add") :: function_ptr_add advanced_functions_and_closures.foo
  let returned_value := returns_closure
  let c4 := [Ev.call ("returns_closure"),
    Ev.print ("returned value: " ++ toString (returned_value 2))]
  c1 ++ c2 ++ c3 ++ c4

/-! `macros` (line 368) and the items declared in its body. -/

/-- The declarative macro `vec_new` (line 384): its single arm matches
zero or more expressions and expands to a block that creates a fresh
`Vec` and pushes each matched expression onto it in order. -/
def vec_new (es : List α) : List α :=
  es.foldl (fun temp_vec x => temp_vec.concat x) []

/-- `macros` (line 368): the macros demonstration: prints
`vec_new![1,2,3]`, then derives `HelloMacro` for `TheNamedStruct` and
calls `TheNamedStruct::hello_macro()` (whose output is modelled from the
spec, see `hello_macro_output`). -/
def macros : List Ev :=
  let l1 := Ev.print ("vec_new: " ++ fmtListInt (vec_new [1, 2, 3]))
  let l2 := [Ev.call ("TheNamedStruct::hello_macro"), Ev.print hello_macro_output]
  l1 :: l2

/-- `main` (line 5) of `src/main_stuff/src/main.rs`: calls `unsafe_rust`,
`advanced_traits`, `advanced_types`, `advanced_functions_and_closures`,
`macros` in that order, with the static `COUNTER` initialised to `0` at
process start. -/
def main : List Ev :=
  let u := unsafe_rust 0
  (Ev.call ("unsafe_rust") :: u.2)
    ++ (Ev.call ("advanced_traits") :: advanced_traits)
    ++ (Ev.call ("advanced_types") :: advanced_types)
    ++ (Ev.call ("advanced_functions_and_closures") :: advanced_functions_and_closures)
    ++ (Ev.call ("macros") :: macros)

/-- A run of the process: the binary never reads standard input (and has
no other input source), so the trace is independent of the stdin
contents passed here. -/
def run (_stdin : List String) : List Ev :=
  main

end MainStuff

/-! Helper lemmas. -/

/-- `joinRust` absorbs a separator-and-element pair prepended to its
head element. -/
theorem joinRust_absorb (s a b : String) (bs : List String) :
    joinRust s ((a ++ s ++ b) :: bs) = a ++ s ++ joinRust s (b :: bs) := by
  cases bs with
  | nil => rfl
  | cons c cs => simp [joinRust, String.append_assoc]

/-- `String.intercalate.go acc s l` equals `joinRust` of `acc :: l`. -/
theorem intercalate_go_eq (s : String) (l : List String) :
    ∀ acc : String, String.intercalate.go acc s l = joinRust s (acc :: l) := by
  induction l with
  | nil => intro acc; rfl
  | cons b bs ih =>
    intro acc
    rw [String.intercalate.go, ih (acc ++ s ++ b), joinRust_absorb]
    rfl

/-- `joinRust` agrees with the library's `String.intercalate`. -/
theorem joinRust_eq_intercalate (sep : String) (l : List String) :
    joinRust sep l = String.intercalate sep l := by
  cases l with
  | nil => rfl
  | cons a as => rw [String.intercalate, intercalate_go_eq]

/-- Folding `Vec::push` over a list starting from accumulator `acc`
appends the list to `acc`. -/
theorem foldl_concat_eq (l acc : List α) :
    l.foldl (fun temp_vec x => temp_vec.concat x) acc = acc ++ l := by
  induction l generalizing acc with
  | nil => simp
  | cons x xs ih =>
    rw [List.foldl_cons, ih, List.concat_eq_append, List.append_assoc]
    rfl

/-! Claim theorems. -/

/-- C1: the demonstration functions shared by the two main files are
behaviorally equivalent — `unsafe_rust` (as a function of the `COUNTER`
state), `advanced_traits` and `advanced_types` of `src/src/main.rs`
produce the very same traces (hence the same standard output) as their
namesakes in `src/main_stuff/src/main.rs` — and the `main` of
`src/main_stuff/src/main.rs` is the `main` of `src/src/main.rs` extended
with `advanced_functions_and_closures` and `macros` appended at the
end. -/
theorem main_stuff_extends_src_main :
    SrcMain.unsafe_rust = MainStuff.unsafe_rust ∧
    SrcMain.advanced_traits = MainStuff.advanced_traits ∧
    SrcMain.advanced_types = MainStuff.advanced_types ∧
    MainStuff.main = SrcMain.main
      ++ (Ev.call ("advanced_functions_and_closures")
          :: MainStuff.advanced_functions_and_closures)
      ++ (Ev.call ("macros") :: MainStuff.macros) :=
  ⟨funext fun _ => rfl, rfl, rfl, by decide⟩

/-- C2 counterexample: the never-type demonstration `foo` is *not*
called exactly once per run: its sole call site sits under `if false`,
so its call count in a full run of `src/main_stuff/src/main.rs` is `0`,
not `1` (and likewise in `src/src/main.rs`). -/
theorem foo_not_called_once :
    ¬ MainStuff.main.count (Ev.call ("advanced_types::foo")) = 1 ∧
    ¬ SrcMain.main.count (Ev.call ("advanced_types::foo")) = 1 := by
  decide

/-- C2 (amended): each of main's top-level demonstration functions runs
exactly once at process start, and among the nested demonstration
functions `danger`, `danger_two`, `hello`, `function_ptr_add`,
`returns_closure` and `TheNamedStruct::hello_macro` run exactly once,
`closure_add` runs twice, and the never-type `foo` is never called
(its sole call site is guarded by `if false`). -/
theorem each_demonstration_count :
    MainStuff.main.count (Ev.call ("unsafe_rust")) = 1 ∧
    MainStuff.main.count (Ev.call ("advanced_traits")) = 1 ∧
    MainStuff.main.count (Ev.call ("advanced_types")) = 1 ∧
    MainStuff.main.count (Ev.call ("advanced_functions_and_closures")) = 1 ∧
    MainStuff.main.count (Ev.call ("macros")) = 1 ∧
    MainStuff.main.count (Ev.call ("danger")) = 1 ∧
    MainStuff.main.count (Ev.call ("danger_two")) = 1 ∧
    MainStuff.main.count (Ev.call ("hello")) = 1 ∧
    MainStuff.main.count (Ev.call ("function_ptr_add")) = 1 ∧
    MainStuff.main.count (Ev.call ("returns_closure")) = 1 ∧
    MainStuff.main.count (Ev.call ("TheNamedStruct::hello_macro")) = 1 ∧
    MainStuff.main.count (Ev.call ("closure_add")) = 2 ∧
    MainStuff.main.count (Ev.call ("advanced_types::foo")) = 0 := by
  decide

/-- C3: the declarative macro `vec_new` expands to pushes of its
argument expressions, in left-to-right order, onto a fresh `Vec`: for
every list of argument values it returns exactly that list; in
particular `vec_new![1,2,3]` is `[1, 2, 3]` and the `macros`
demonstration prints `vec_new: [1, 2, 3]`. -/
theorem vec_new_eq_args (α : Type) (es : List α) :
    MainStuff.vec_new es = es ∧
    MainStuff.vec_new ([1, 2, 3] : List Int) = [1, 2, 3] ∧
    Ev.print ("vec_new: [1, 2, 3]") ∈ MainStuff.macros := by
  refine ⟨?_, by decide, by decide⟩
  rw [MainStuff.vec_new, foldl_concat_eq]
  rfl

/-- C4: the program is deterministic — a run's trace (hence its standard
output) does not depend on the stdin contents, and two executions of the
same `main` (each starting from the static `COUNTER = 0`) produce
identical traces. -/
theorem runs_deterministic (s₁ s₂ : List String) :
    SrcMain.run s₁ = SrcMain.run s₂ ∧ MainStuff.run s₁ = MainStuff.run s₂ :=
  ⟨rfl, rfl⟩

/-- C5: `unsafe_rust` increments `COUNTER` exactly once (from any entry
value `c` it exits with `c + 1`), and in every run — `COUNTER` being
initialised to `0` at process start, with nothing persisting across
runs — the one and only `COUNTER` line printed is `COUNTER: 1`. -/
theorem counter_printed_once (c : Int) (stdin : List String) :
    (MainStuff.unsafe_rust c).1 = c + 1 ∧
    (SrcMain.unsafe_rust c).1 = c + 1 ∧
    prints (MainStuff.unsafe_rust c).2
      = [("mut_ptr: 5"), ("ptr: 5"), ("Dangerous function called!"),
         ("Another dangerous function 1"), ("Unsafe stuff: ([1, 2, 3], [4, 5])"),
         ("Absolute value of -3 according to C: 3"),
         ("COUNTER: " ++ toString (c + 1))] ∧
    (prints (MainStuff.run stdin)).count ("COUNTER: 1") = 1 ∧
    (prints (SrcMain.run stdin)).count ("COUNTER: 1") = 1 := by
  refine ⟨rfl, rfl, rfl, ?_, ?_⟩
  · show (prints MainStuff.main).count ("COUNTER: 1") = 1
    decide
  · show (prints SrcMain.main).count ("COUNTER: 1") = 1
    decide

/-- C6: the `Display` implementation of the newtype `Wrapper` formats
any wrapped vector `v` as `[` ++ the elements of `v` joined by `, ` ++
`]`, and the demonstration value `["hello", "world"]` is printed as
`w = [hello, world]` (in both main files). -/
theorem wrapper_display_joins (v : List String) :
    MainStuff.Display.fmt (MainStuff.Wrapper.mk v)
      = "[" ++ String.intercalate (", ") v ++ "]" ∧
    SrcMain.Display.fmt (SrcMain.Wrapper.mk v)
      = "[" ++ String.intercalate (", ") v ++ "]" ∧
    Ev.print ("w = [hello, world]") ∈ MainStuff.advanced_traits ∧
    Ev.print ("w = [hello, world]") ∈ SrcMain.advanced_traits := by
  refine ⟨?_, ?_, by decide, by decide⟩
  · show "[" ++ joinRust (", ") v ++ "]" = "[" ++ String.intercalate (", ") v ++ "]"
    rw [joinRust_eq_intercalate]
  · show "[" ++ joinRust (", ") v ++ "]" = "[" ++ String.intercalate (", ") v ++ "]"
    rw [joinRust_eq_intercalate]

/-- C7: method dispatch on `Human` — `human.pain()` selects the inherent
implementation, while `Arm::pain(&human)`, `Leg::pain(&human)` and
`<Human as Leg>::pain(&human)` select the trait defaults — so the four
calls print, in order, `Overall I feel good`, `My arm feels good`,
`My leg is a little sore`, `My leg is a little sore`, as the output of
`advanced_traits` shows (positions 3–6 of its print list, in both main
files). -/
theorem human_pain_dispatch (human : MainStuff.Human) (human' : SrcMain.Human) :
    MainStuff.Human.pain human = "Overall I feel good" ∧
    MainStuff.Arm.pain human = "My arm feels good" ∧
    MainStuff.Leg.pain human = "My leg is a little sore" ∧
    SrcMain.Human.pain human' = "Overall I feel good" ∧
    SrcMain.Arm.pain human' = "My arm feels good" ∧
    SrcMain.Leg.pain human' = "My leg is a little sore" ∧
    prints MainStuff.advanced_traits
      = [("associated Some(3) generic::u32 Some(5) generic::String Some(\"generic\")"),
         ("win 4"), ("Overall I feel good"), ("My arm feels good"),
         ("My leg is a little sore"), ("My leg is a little sore"),
         ("running show_stuff() 12"), ("w = [hello, world]")] ∧
    prints SrcMain.advanced_traits = prints MainStuff.advanced_traits := by
  exact ⟨rfl, rfl, rfl, rfl, rfl, rfl, by decide, rfl⟩

/-- C8: `BarStruct`'s single `FooAssociated` implementation has
`Item = u32`, and for every `BarStruct` value `b`, `b.foo_associated()`
returns `Some(3)`, `<BarStruct as FooGeneric<u32>>::foo_generic(&mut b)`
returns `Some(5)`, and `<BarStruct as FooGeneric<String>>::foo_generic(&mut b)`
returns `Some("generic")` (in both main files). -/
theorem bar_struct_impls (b : MainStuff.BarStruct) (b' : SrcMain.BarStruct) :
    @MainStuff.FooAssociated.Item MainStuff.BarStruct _ = Nat ∧
    (show Option Nat from MainStuff.FooAssociated.foo_associated b) = some 3 ∧
    @MainStuff.FooGeneric.foo_generic Nat MainStuff.BarStruct _ b = some 5 ∧
    @MainStuff.FooGeneric.foo_generic String MainStuff.BarStruct _ b
      = some ("generic") ∧
    @SrcMain.FooAssociated.Item SrcMain.BarStruct _ = Nat ∧
    (show Option Nat from SrcMain.FooAssociated.foo_associated b') = some 3 ∧
    @SrcMain.FooGeneric.foo_generic Nat SrcMain.BarStruct _ b' = some 5 ∧
    @SrcMain.FooGeneric.foo_generic String SrcMain.BarStruct _ b'
      = some ("generic") :=
  ⟨rfl, rfl, rfl, rfl, rfl, rfl, rfl, rfl⟩

/-- C9: for every vector `x` of `i32` with length at least 5,
`hello(&mut x)` returns two slices of lengths 3 and 2 over the disjoint
in-bounds index ranges `0..3` and `3..5`, whose concatenation is the
first five elements of `x` unchanged; for `x = [1, 2, 3, 4, 5]` it
returns `([1, 2, 3], [4, 5])` and the demonstration prints
`Unsafe stuff: ([1, 2, 3], [4, 5])`. -/
theorem hello_splits_first_five (x : List Int) (h : 5 ≤ x.length) :
    (MainStuff.hello x).1.length = 3 ∧
    (MainStuff.hello x).2.length = 2 ∧
    (MainStuff.hello x).1 ++ (MainStuff.hello x).2 = x.take 5 ∧
    SrcMain.hello = MainStuff.hello ∧
    MainStuff.hello [1, 2, 3, 4, 5] = ([1, 2, 3], [4, 5]) ∧
    Ev.print ("Unsafe stuff: ([1, 2, 3], [4, 5])") ∈ (MainStuff.unsafe_rust 0).2 := by
  refine ⟨?_, ?_, ?_, rfl, by decide, by decide⟩
  · show (x.take 3).length = 3
    rw [List.length_take]
    omega
  · show ((x.drop 3).take 2).length = 2
    rw [List.length_take, List.length_drop]
    omega
  · show x.take 3 ++ (x.drop 3).take 2 = x.take 5
    exact (List.take_add x 3 2).symm

/-- Witness for C9 at the concrete demonstration input
`x = [1, 2, 3, 4, 5]`. -/
theorem hello_splits_first_five_witness :
    (MainStuff.hello [1, 2, 3, 4, 5]).1 ++ (MainStuff.hello [1, 2, 3, 4, 5]).2
      = ([1, 2, 3, 4, 5] : List Int).take 5 :=
  (hello_splits_first_five [1, 2, 3, 4, 5] (by decide)).2.2.1

/-- C10: the program never panics — `foo`'s body would panic with
message `never type`, but no panic event occurs in a full run of either
main, `foo`'s sole call site being guarded by `if false`. -/
theorem no_panic_in_main :
    MainStuff.advanced_types.foo = [Ev.panic ("never type")] ∧
    MainStuff.main.all (fun e => ! e.isPanic) = true ∧
    SrcMain.main.all (fun e => ! e.isPanic) = true := by
  refine ⟨rfl, by decide, by decide⟩
